import Mathlib

/-!
Shallow embedding of `src/sentry/tagstore/snuba/backend.py`: the Snuba-backed
tag storage layer. Each public operation is split, following the architecture
the module itself uses, into a query-descriptor builder (the arguments passed
to `snuba.query`) and a result mapper (the pure computation from the engine's
rows to domain records). The external engine (`sentry.utils.snuba`) is not
part of the source tree; its result for each query shape is a parameter of the
corresponding mapper, and the semantics of its boolean condition trees is
modelled from the documented contract (top-level list = conjunction, nested
list = disjunction of clauses).
-/

set_option linter.unusedVariables false

namespace Sentry

/-- Literal operand of a simple condition: a string, a list of strings
(for `IN`), or `None` (for `IS NOT NULL`). -/
inductive Lit where
  | str (s : String)
  | strs (xs : List String)
  | null
deriving DecidableEq, Repr

/-- A snuba condition: either a simple `[column, operator, literal]` triple or
a nested list of conditions forming an OR-group. -/
inductive Cond where
  | cmp (col op : String) (lit : Lit)
  | group (cs : List Cond)

/-- A row as seen by condition evaluation: a partial valuation of columns. -/
def Row : Type := String → Option String

/-- Evaluation of a simple comparison against a row. Modelled from the spec:
the engine's condition language (equality, inequality, `IN`, `IS NOT NULL`)
over a nested boolean expression tree. -/
def evalCmp (r : Row) (col op : String) (lit : Lit) : Bool :=
  match op, lit with
  | "=", Lit.str s => r col == some s
  | "!=", Lit.str s => r col != some s
  | "IN", Lit.strs xs => match r col with
    | some v => xs.contains v
    | none => false
  | "IS NOT NULL", _ => (r col).isSome
  | _, _ => false

/-- Evaluation of one condition: a nested list is the disjunction of its
members. Modelled from the spec: conditions form a nested boolean expression
tree where a nested list is an OR-group. -/
def evalCond (r : Row) : Cond → Bool
  | Cond.cmp col op lit => evalCmp r col op lit
  | Cond.group cs => cs.attach.any fun c => evalCond r c.val
decreasing_by
  simp only [Cond.group.sizeOf_spec]
  have h := List.sizeOf_lt_of_mem c.property
  omega

/-- A top-level condition list is the conjunction of its members. -/
def evalConditions (cs : List Cond) (r : Row) : Bool :=
  cs.all fun c => evalCond r c

/-- The complete query descriptor handed to `snuba.query`: time range,
group-by columns, conditions, filters (column to allowed id list),
aggregations `(function, column, alias)`, optional limit and order-by.
(`end` is a reserved word in Lean, so the range is `start`/`stop`.) -/
structure QueryDescriptor where
  start : Int
  stop : Int
  groupby : List String
  conditions : List Cond
  filters : List (String × List Int)
  aggregations : List (String × String × String)
  limit : Option Nat
  orderby : Option String

/-- `get_time_range(days=90)`: `end = timezone.now()`, returns
`(end - timedelta(days=days), end)`. Time is modelled in seconds; `now` is
the wall-clock reading taken at the start of the call. -/
def get_time_range (now : Int) (days : Int) : Int × Int :=
  (now - days * 86400, now)

/-- Errors surfaced by the layer: the four not-found variants from
`sentry.tagstore.exceptions`, Python's `NotImplementedError`, and a failed
`assert`. -/
inductive TagstoreError where
  | tagKeyNotFound
  | groupTagKeyNotFound
  | tagValueNotFound
  | groupTagValueNotFound
  | notImplemented
  | assertionFailed
deriving DecidableEq, Repr

/-- Modelled from the spec: `TagKeyStatus` lives outside the source tree; the
backend only ever compares a status against `VISIBLE`, so one non-visible
status suffices. -/
inductive TagKeyStatus where
  | visible
  | pending_deletion
deriving DecidableEq, Repr

/-- Which record constructor from `sentry.tagstore.types` a call invoked. -/
inductive RecordCtor where
  | tagKeyC
  | tagValueC
  | groupTagKeyC
  | groupTagValueC
deriving DecidableEq, Repr

/-- Modelled from the spec: the domain record types (`TagKey`, `TagValue`,
`GroupTagKey`, `GroupTagValue` in `sentry.tagstore.types`) are outside the
source tree. Python constructs them with keyword arguments, so a record is
modelled as an attribute bag that remembers which constructor was invoked;
attributes a call did not supply stay `none`. Attribute names follow the
spec's data-model table. -/
structure Record where
  ctor : RecordCtor
  group_id : Option Int
  key : String
  value : Option String
  values_seen : Option Nat
  times_seen : Option Nat
  first_seen : Option Int
  last_seen : Option Int
deriving DecidableEq, Repr

/-- A keyword-argument constructor call `ctor(**data)`: positional rendering
of the attribute bag handed to one of the four record constructors. -/
def pyConstruct (c : RecordCtor) (group_id : Option Int) (key : String)
    (value : Option String) (values_seen times_seen : Option Nat)
    (first_seen last_seen : Option Int) : Record :=
  ⟨c, group_id, key, value, values_seen, times_seen, first_seen, last_seen⟩

/-- The aggregate row returned by the engine for the count/min/max
aggregation triple used by value lookups. -/
structure ValAgg where
  times_seen : Nat
  first_seen : Int
  last_seen : Int
deriving DecidableEq, Repr

/-- The `ObjectWrapper` attribute bag: a generic labeled record whose `id` is
forced to `0` by the wrapper's constructor. -/
structure ObjectWrapper where
  id : Int
  times_seen : Nat
  first_seen : Int
  last_seen : Int
  key : String
  value : String
deriving DecidableEq, Repr

/-- `ObjectWrapper(dictionary)`: sets `dictionary['id'] = 0` and adopts the
remaining attributes. -/
def objectWrapper (times_seen : Nat) (first_seen last_seen : Int)
    (key value : String) : ObjectWrapper :=
  ⟨0, times_seen, first_seen, last_seen, key, value⟩

/-- An `EventUser` as consumed by the user-scoped operations: only the
fields the backend reads are modelled. -/
structure EventUser where
  project_id : Int
  ident : Option String
  email : Option String
  username : Option String
  ip_address : Option String
deriving DecidableEq, Repr

/-- Python truthiness for an optional string field (`if eu.ident`): `None`
and the empty string are falsy. -/
def truthy : Option String → Option String
  | none => none
  | some s => if s = "" then none else some s

/-!
Query builders and result mappers, one pair per operation, in source order.
Every builder takes `now` (the wall-clock reading of the call) first and
derives its time range via `get_time_range now 90`, exactly as every method
starts with `start, end = self.get_time_range()`.
-/

/-- The column expression `'tags[{}]'.format(key)`. -/
def tagColumn (key : String) : String :=
  "tags[" ++ key ++ "]"

/-- Filters `{project_id: [project_id], environment: [environment_id]}` plus
`issue: [group_id]` when an issue scope is present (insertion order kept). -/
def scopedFilters (project_id : Int) (group_id : Option Int)
    (environment_id : Int) : List (String × List Int) :=
  [("project_id", [project_id]), ("environment", [environment_id])] ++
    (match group_id with
      | none => []
      | some g => [("issue", [g])])

/-- Query built by `__get_tag_key`: scalar `uniq(tag)` with condition
`tag != ''`. -/
def __get_tag_key_query (now : Int) (project_id : Int) (group_id : Option Int)
    (environment_id : Int) (key : String) : QueryDescriptor :=
  { start := (get_time_range now 90).1
    stop := (get_time_range now 90).2
    groupby := []
    conditions := [Cond.cmp (tagColumn key) "!=" (Lit.str "")]
    filters := scopedFilters project_id group_id environment_id
    aggregations := [("uniq", tagColumn key, "unique_values")]
    limit := none
    orderby := none }

/-- Result mapping of `__get_tag_key`: a zero scalar raises the not-found
variant selected by scope; otherwise `TagKey`/`GroupTagKey` is constructed
with `key` and `values_seen`. -/
def __get_tag_key (group_id : Option Int) (key : String) (result : Nat) :
    Except TagstoreError Record :=
  if result = 0 then
    Except.error (match group_id with
      | none => TagstoreError.tagKeyNotFound
      | some _ => TagstoreError.groupTagKeyNotFound)
  else
    match group_id with
    | none =>
      Except.ok (pyConstruct RecordCtor.tagKeyC none key none (some result)
        none none none)
    | some g =>
      Except.ok (pyConstruct RecordCtor.groupTagKeyC (some g) key none
        (some result) none none none)

/-- Query built by `__get_tag_keys`: group-by `tags_key`,
`uniq(tags_value) as values_seen`, ordered by `-values_seen`. -/
def __get_tag_keys_query (now : Int) (project_id : Int) (group_id : Option Int)
    (environment_id : Int) (limit : Option Nat) : QueryDescriptor :=
  { start := (get_time_range now 90).1
    stop := (get_time_range now 90).2
    groupby := ["tags_key"]
    conditions := []
    filters := scopedFilters project_id group_id environment_id
    aggregations := [("uniq", "tags_value", "values_seen")]
    limit := limit
    orderby := some "-values_seen" }

/-- Result mapping of `__get_tag_keys`: one record per `(key, values_seen)`
row in engine order, rows with a falsy (zero) `values_seen` dropped; the
constructor is chosen once per call from the scope. -/
def __get_tag_keys (group_id : Option Int) (result : List (String × Nat)) :
    List Record :=
  (result.filter fun kv => kv.2 ≠ 0).map fun kv =>
    match group_id with
    | none =>
      pyConstruct RecordCtor.tagKeyC none kv.1 none (some kv.2) none none none
    | some g =>
      pyConstruct RecordCtor.groupTagKeyC (some g) kv.1 none (some kv.2)
        none none none

/-- Query built by `__get_tag_value`: scalar count/min/max with exact-match
condition `tag = value`. -/
def __get_tag_value_query (now : Int) (project_id : Int)
    (group_id : Option Int) (environment_id : Int) (key value : String) :
    QueryDescriptor :=
  { start := (get_time_range now 90).1
    stop := (get_time_range now 90).2
    groupby := []
    conditions := [Cond.cmp (tagColumn key) "=" (Lit.str value)]
    filters := scopedFilters project_id group_id environment_id
    aggregations := [("count()", "", "times_seen"),
      ("min", "timestamp", "first_seen"), ("max", "timestamp", "last_seen")]
    limit := none
    orderby := none }

/-- Result mapping of `__get_tag_value`: empty data raises the value
not-found variant selected by scope; otherwise the source invokes the
`TagKey`/`GroupTagKey` constructor (lines 126 and 128 of the backend) on the
value-lookup attribute bag. -/
def __get_tag_value (group_id : Option Int) (key value : String)
    (data : Option ValAgg) : Except TagstoreError Record :=
  match data with
  | none =>
    Except.error (match group_id with
      | none => TagstoreError.tagValueNotFound
      | some _ => TagstoreError.groupTagValueNotFound)
  | some d =>
    match group_id with
    | none =>
      Except.ok (pyConstruct RecordCtor.tagKeyC none key (some value) none
        (some d.times_seen) (some d.first_seen) (some d.last_seen))
    | some g =>
      Except.ok (pyConstruct RecordCtor.groupTagKeyC (some g) key (some value)
        none (some d.times_seen) (some d.first_seen) (some d.last_seen))

/-- Query built by `__get_tag_values`: group-by the tag expression, condition
`tag != ''`, count/min/max aggregations. -/
def __get_tag_values_query (now : Int) (project_id : Int)
    (group_id : Option Int) (environment_id : Int) (key : String) :
    QueryDescriptor :=
  { start := (get_time_range now 90).1
    stop := (get_time_range now 90).2
    groupby := [tagColumn key]
    conditions := [Cond.cmp (tagColumn key) "!=" (Lit.str "")]
    filters := scopedFilters project_id group_id environment_id
    aggregations := [("count()", "", "times_seen"),
      ("min", "timestamp", "first_seen"), ("max", "timestamp", "last_seen")]
    limit := none
    orderby := none }

/-- Result mapping of `__get_tag_values`: one `TagValue`/`GroupTagValue` per
`(value, data)` row, constructor chosen once per call from the scope. -/
def __get_tag_values (group_id : Option Int) (key : String)
    (result : List (String × ValAgg)) : List Record :=
  result.map fun vd =>
    match group_id with
    | none =>
      pyConstruct RecordCtor.tagValueC none key (some vd.1) none
        (some vd.2.times_seen) (some vd.2.first_seen) (some vd.2.last_seen)
    | some g =>
      pyConstruct RecordCtor.groupTagValueC (some g) key (some vd.1) none
        (some vd.2.times_seen) (some vd.2.first_seen) (some vd.2.last_seen)

/-!
Public wrappers. `get_tag_key` and `get_tag_keys` assert
`status is TagKeyStatus.VISIBLE` before anything else; their `_queries`
companions list the descriptors actually sent to the engine (empty when the
assertion fires first).
-/

/-- `get_tag_key`: asserts the status, then delegates with no issue scope. -/
def get_tag_key (project_id environment_id : Int) (key : String)
    (status : TagKeyStatus) (result : Nat) : Except TagstoreError Record :=
  if status = TagKeyStatus.visible then
    __get_tag_key none key result
  else
    Except.error TagstoreError.assertionFailed

/-- Queries issued by `get_tag_key`: none when the assertion fails. -/
def get_tag_key_queries (now : Int) (project_id environment_id : Int)
    (key : String) (status : TagKeyStatus) : List QueryDescriptor :=
  if status = TagKeyStatus.visible then
    [__get_tag_key_query now project_id none environment_id key]
  else
    []

/-- `get_tag_keys`: asserts the status, then delegates with no issue scope
and the default limit of 1000. -/
def get_tag_keys (project_id environment_id : Int) (status : TagKeyStatus)
    (result : List (String × Nat)) : Except TagstoreError (List Record) :=
  if status = TagKeyStatus.visible then
    Except.ok (__get_tag_keys none result)
  else
    Except.error TagstoreError.assertionFailed

/-- Queries issued by `get_tag_keys`: none when the assertion fails. -/
def get_tag_keys_queries (now : Int) (project_id environment_id : Int)
    (status : TagKeyStatus) : List QueryDescriptor :=
  if status = TagKeyStatus.visible then
    [__get_tag_keys_query now project_id none environment_id (some 1000)]
  else
    []

/-- `get_tag_value`: delegates with no issue scope. -/
def get_tag_value (project_id environment_id : Int) (key value : String)
    (data : Option ValAgg) : Except TagstoreError Record :=
  __get_tag_value none key value data

/-- `get_tag_values`: delegates with no issue scope. -/
def get_tag_values (project_id environment_id : Int) (key : String)
    (result : List (String × ValAgg)) : List Record :=
  __get_tag_values none key result

/-- `get_group_tag_key`: delegates with an issue scope. -/
def get_group_tag_key (project_id group_id environment_id : Int)
    (key : String) (result : Nat) : Except TagstoreError Record :=
  __get_tag_key (some group_id) key result

/-- `get_group_tag_keys`: delegates with an issue scope (`limit=None` by
default). -/
def get_group_tag_keys (project_id group_id environment_id : Int)
    (result : List (String × Nat)) : List Record :=
  __get_tag_keys (some group_id) result

/-- `get_group_tag_value`: delegates with an issue scope. -/
def get_group_tag_value (project_id group_id environment_id : Int)
    (key value : String) (data : Option ValAgg) :
    Except TagstoreError Record :=
  __get_tag_value (some group_id) key value data

/-- `get_group_tag_values`: delegates with an issue scope. -/
def get_group_tag_values (project_id group_id environment_id : Int)
    (key : String) (result : List (String × ValAgg)) : List Record :=
  __get_tag_values (some group_id) key result

/-- Query built by `get_group_list_tag_value`: filters scoped to a set of
issue ids, exact-match condition, count/min/max, group-by `issue`. -/
def get_group_list_tag_value_query (now : Int) (project_id : Int)
    (group_ids : List Int) (environment_id : Int) (key value : String) :
    QueryDescriptor :=
  { start := (get_time_range now 90).1
    stop := (get_time_range now 90).2
    groupby := ["issue"]
    conditions := [Cond.cmp (tagColumn key) "=" (Lit.str value)]
    filters := [("project_id", [project_id]),
      ("environment", [environment_id]), ("issue", group_ids)]
    aggregations := [("count()", "", "times_seen"),
      ("min", "timestamp", "first_seen"), ("max", "timestamp", "last_seen")]
    limit := none
    orderby := none }

/-- Result mapping of `get_group_list_tag_value`: a mapping keyed by issue
id, each entry a `GroupTagValue` whose `group_id` is that issue. -/
def get_group_list_tag_value (key value : String)
    (result : List (Int × ValAgg)) : List (Int × Record) :=
  result.map fun iv =>
    (iv.1, pyConstruct RecordCtor.groupTagValueC (some iv.1) key (some value)
      none (some iv.2.times_seen) (some iv.2.first_seen) (some iv.2.last_seen))

/-- Query built by `get_group_tag_value_count`: scalar `count()` with
condition `tag != ''`, scoped to one issue. -/
def get_group_tag_value_count_query (now : Int)
    (project_id group_id environment_id : Int) (key : String) :
    QueryDescriptor :=
  { start := (get_time_range now 90).1
    stop := (get_time_range now 90).2
    groupby := []
    conditions := [Cond.cmp (tagColumn key) "!=" (Lit.str "")]
    filters := [("project_id", [project_id]),
      ("environment", [environment_id]), ("issue", [group_id])]
    aggregations := [("count()", "", "count")]
    limit := none
    orderby := none }

/-- `get_group_tag_value_count` returns the scalar count unchanged. -/
def get_group_tag_value_count (result : Nat) : Nat :=
  result

/-- Query built by `get_top_group_tag_values`: like value listing but ordered
by `-times_seen` with the supplied limit (the source's default is 3). -/
def get_top_group_tag_values_query (now : Int)
    (project_id group_id environment_id : Int) (key : String)
    (limit : Nat := 3) : QueryDescriptor :=
  { start := (get_time_range now 90).1
    stop := (get_time_range now 90).2
    groupby := [tagColumn key]
    conditions := [Cond.cmp (tagColumn key) "!=" (Lit.str "")]
    filters := [("project_id", [project_id]),
      ("environment", [environment_id]), ("issue", [group_id])]
    aggregations := [("count()", "", "times_seen"),
      ("min", "timestamp", "first_seen"), ("max", "timestamp", "last_seen")]
    limit := some limit
    orderby := some "-times_seen" }

/-- Result mapping of `get_top_group_tag_values`: one `GroupTagValue` per
`(value, data)` row, in engine order. -/
def get_top_group_tag_values (group_id : Int) (key : String)
    (result : List (String × ValAgg)) : List Record :=
  result.map fun vd =>
    pyConstruct RecordCtor.groupTagValueC (some group_id) key (some vd.1) none
      (some vd.2.times_seen) (some vd.2.first_seen) (some vd.2.last_seen)

/-- Query built by `get_release`: condition `release IS NOT NULL`, group-by
`release`, `min`/`max(timestamp) as seen`, limit 1, ordered by `seen` or
`-seen` depending on direction. -/
def get_release_query (now : Int) (project_id : Int) (group_id : Option Int)
    (first : Bool) : QueryDescriptor :=
  { start := (get_time_range now 90).1
    stop := (get_time_range now 90).2
    groupby := ["release"]
    conditions := [Cond.cmp "release" "IS NOT NULL" Lit.null]
    filters := [("project_id", [project_id])] ++
      (match group_id with
        | none => []
        | some g => [("issue", [g])])
    aggregations := [((if first then "min" else "max"), "timestamp", "seen")]
    limit := some 1
    orderby := some (if first then "seen" else "-seen") }

/-- Result mapping of `get_release`: `None` on an empty result, otherwise the
first key of the result mapping. -/
def get_release (result : List (String × Int)) : Option String :=
  match result with
  | [] => none
  | r :: _ => some r.1

/-- `get_first_release` delegates to `get_release` with `first=True`. -/
def get_first_release_query (now : Int) (project_id : Int)
    (group_id : Option Int) : QueryDescriptor :=
  get_release_query now project_id group_id true

/-- `get_last_release` delegates to `get_release` with `first=False`. -/
def get_last_release_query (now : Int) (project_id : Int)
    (group_id : Option Int) : QueryDescriptor :=
  get_release_query now project_id group_id false

/-- Query built by `get_release_tags`: filters span the given project ids,
condition `release IN versions` (versions as literal strings, not filters),
count/min/max, group-by `release`. -/
def get_release_tags_query (now : Int) (project_ids : List Int)
    (environment_id : Int) (versions : List String) : QueryDescriptor :=
  { start := (get_time_range now 90).1
    stop := (get_time_range now 90).2
    groupby := ["release"]
    conditions := [Cond.cmp "release" "IN" (Lit.strs versions)]
    filters := [("project_id", project_ids), ("environment", [environment_id])]
    aggregations := [("count()", "", "count"),
      ("min", "timestamp", "first_seen"), ("max", "timestamp", "last_seen")]
    limit := none
    orderby := none }

/-- Result mapping of `get_release_tags`: one labeled record per matched
version, key fixed to `release`. -/
def get_release_tags (result : List (String × ValAgg)) : List ObjectWrapper :=
  result.map fun nv =>
    objectWrapper nv.2.times_seen nv.2.first_seen nv.2.last_seen "release" nv.1

/-- Query built by `get_group_event_ids`: one OR-group of equality clauses,
one per supplied `(tag, value)` pair, group-by `event_id`; the source passes
no aggregations of its own. -/
def get_group_event_ids_query (now : Int) (project_id group_id : Int)
    (environment_id : Int) (tags : List (String × String)) : QueryDescriptor :=
  { start := (get_time_range now 90).1
    stop := (get_time_range now 90).2
    groupby := ["event_id"]
    conditions :=
      [Cond.group (tags.map fun tv =>
        Cond.cmp (tagColumn tv.1) "=" (Lit.str tv.2))]
    filters := [("environment", [environment_id]), ("project_id", [project_id])]
    aggregations := []
    limit := none
    orderby := none }

/-- Result mapping of `get_group_event_ids`: the keys of the result. -/
def get_group_event_ids (result : List (String × Nat)) : List String :=
  result.map fun kv => kv.1

/-- The four identity-field candidate clauses of the user-scoped operations:
each pairs a column with the truthy values of that field across the given
event users. -/
def identityLists (event_users : List EventUser) :
    List (String × List String) :=
  [("user_id", event_users.filterMap fun eu => truthy eu.ident),
   ("email", event_users.filterMap fun eu => truthy eu.email),
   ("username", event_users.filterMap fun eu => truthy eu.username),
   ("ip_address", event_users.filterMap fun eu => truthy eu.ip_address)]

/-- The OR-group shared by `get_group_ids_for_users` and
`get_group_tag_values_for_users`: an `IN` clause per identity field, kept
only when its value list is non-empty (`if cond[2] != []`). -/
def userOrConditions (event_users : List EventUser) : List Cond :=
  ((identityLists event_users).filter fun c => c.2 ≠ []).map fun c =>
    Cond.cmp c.1 "IN" (Lit.strs c.2)

/-- Query built by `get_group_ids_for_users`: project filter, the identity
OR-group, `max(timestamp) as seen`, group-by `issue`, ordered `-seen`, the
supplied limit (source default 100). -/
def get_group_ids_for_users_query (now : Int) (project_ids : List Int)
    (event_users : List EventUser) (limit : Nat := 100) : QueryDescriptor :=
  { start := (get_time_range now 90).1
    stop := (get_time_range now 90).2
    groupby := ["issue"]
    conditions := [Cond.group (userOrConditions event_users)]
    filters := [("project_id", project_ids)]
    aggregations := [("max", "timestamp", "seen")]
    limit := some limit
    orderby := some "-seen" }

/-- Result mapping of `get_group_ids_for_users`: the issue-id keys. -/
def get_group_ids_for_users (result : List (Int × Int)) : List Int :=
  result.map fun kv => kv.1

/-- Query built by `get_group_tag_values_for_users`: projects taken from the
event users themselves, the same identity OR-group, count/min/max, group-by
`user_id`, ordered `-last_seen`, the supplied limit (source default 100). -/
def get_group_tag_values_for_users_query (now : Int)
    (event_users : List EventUser) (limit : Nat := 100) : QueryDescriptor :=
  { start := (get_time_range now 90).1
    stop := (get_time_range now 90).2
    groupby := ["user_id"]
    conditions := [Cond.group (userOrConditions event_users)]
    filters := [("project_id", event_users.map fun eu => eu.project_id)]
    aggregations := [("count()", "", "count"),
      ("min", "timestamp", "first_seen"), ("max", "timestamp", "last_seen")]
    limit := some limit
    orderby := some "-last_seen" }

/-- Result mapping of `get_group_tag_values_for_users`: one labeled record
per `(name, data)` row with the fixed key `sentry:user`. -/
def get_group_tag_values_for_users (result : List (String × ValAgg)) :
    List ObjectWrapper :=
  result.map fun nv =>
    objectWrapper nv.2.times_seen nv.2.first_seen nv.2.last_seen
      "sentry:user" nv.1

/-- Query built by `get_groups_user_counts`: filters scoped to the issue set,
no conditions, `uniq(user_id) as count`, group-by `issue`. -/
def get_groups_user_counts_query (now : Int) (project_id : Int)
    (group_ids : List Int) (environment_id : Int) : QueryDescriptor :=
  { start := (get_time_range now 90).1
    stop := (get_time_range now 90).2
    groupby := ["issue"]
    conditions := []
    filters := [("project_id", [project_id]),
      ("environment", [environment_id]), ("issue", group_ids)]
    aggregations := [("uniq", "user_id", "count")]
    limit := none
    orderby := none }

/-- Result mapping of `get_groups_user_counts`: `defaultdict(int, result)`,
modelled as total lookup — the stored count where a row exists, `0` for
every other issue id. -/
def get_groups_user_counts (result : List (Int × Nat)) : Int → Nat :=
  fun issue =>
    match result.lookup issue with
    | some c => c
    | none => 0

/-- `get_group_ids_for_search_filter` raises `NotImplementedError` at once:
no result, for any input. -/
def get_group_ids_for_search_filter (project_id environment_id : Int)
    (tags : List (String × String)) (candidates : Option (List Int))
    (limit : Nat) : Except TagstoreError (List Int) :=
  Except.error TagstoreError.notImplemented

/-- Queries issued by `get_group_ids_for_search_filter`: none, ever — the
raise precedes any engine interaction. -/
def get_group_ids_for_search_filter_queries (now : Int)
    (project_id environment_id : Int) (tags : List (String × String))
    (candidates : Option (List Int)) (limit : Nat) : List QueryDescriptor :=
  []

/-- The (start, end) pair of a descriptor. -/
def timeWindow (q : QueryDescriptor) : Int × Int :=
  (q.start, q.stop)

/-- C1: the claim says a non-empty value lookup returns a `TagValue` (no
issue scope) or a `GroupTagValue` (issue scope). On the code it does not:
`__get_tag_value` invokes the `TagKey` / `GroupTagKey` constructors on the
value-lookup data, shown here at a concrete non-empty engine row. -/
theorem value_lookup_uses_key_constructors :
    (get_tag_value 1 1 "browser" "Chrome" (some ⟨3, 100, 200⟩)).map
        Record.ctor = Except.ok RecordCtor.tagKeyC ∧
    (get_group_tag_value 1 7 1 "browser" "Chrome" (some ⟨3, 100, 200⟩)).map
        Record.ctor = Except.ok RecordCtor.groupTagKeyC :=
  ⟨rfl, rfl⟩

/-- C3: with zero matching rows the singular lookups raise the not-found
variant selected by scope (key vs. value, project vs. issue), while every
listing operation returns an empty collection and raises nothing. -/
theorem singular_raises_plural_returns_empty (p e g : Int)
    (key value : String) :
    get_tag_key p e key TagKeyStatus.visible 0 =
        Except.error TagstoreError.tagKeyNotFound ∧
    get_group_tag_key p g e key 0 =
        Except.error TagstoreError.groupTagKeyNotFound ∧
    get_tag_value p e key value none =
        Except.error TagstoreError.tagValueNotFound ∧
    get_group_tag_value p g e key value none =
        Except.error TagstoreError.groupTagValueNotFound ∧
    get_tag_keys p e TagKeyStatus.visible [] = Except.ok [] ∧
    get_group_tag_keys p g e [] = [] ∧
    get_tag_values p e key [] = [] ∧
    get_group_tag_values p g e key [] = [] :=
  ⟨rfl, rfl, rfl, rfl, rfl, rfl, rfl, rfl⟩

/-- C7: the release query asks for `release IS NOT NULL`, group-by
`release`, limit 1, `min(timestamp)` ordered ascending for the first release
and `max(timestamp)` ordered descending for the last; the mapper yields the
single release identifier when a row exists and `none` when no rows. -/
theorem release_query_shape (now p : Int) (g : Option Int) (first : Bool)
    (r : String × Int) (rest : List (String × Int)) :
    (get_release_query now p g first).conditions =
        [Cond.cmp "release" "IS NOT NULL" Lit.null] ∧
    (get_release_query now p g first).groupby = ["release"] ∧
    (get_release_query now p g first).limit = some 1 ∧
    (get_release_query now p g first).aggregations =
        [((if first then "min" else "max"), "timestamp", "seen")] ∧
    (get_release_query now p g first).orderby =
        some (if first then "seen" else "-seen") ∧
    get_first_release_query now p g = get_release_query now p g true ∧
    get_last_release_query now p g = get_release_query now p g false ∧
    get_release [] = (none : Option String) ∧
    get_release (r :: rest) = some r.1 :=
  ⟨rfl, rfl, rfl, rfl, rfl, rfl, rfl, rfl, rfl⟩

/-- C9: `get_group_ids_for_search_filter` raises the not-implemented
condition for every input and issues no query. -/
theorem search_filter_unsupported (now p e : Int)
    (tags : List (String × String)) (candidates : Option (List Int))
    (limit : Nat) :
    get_group_ids_for_search_filter p e tags candidates limit =
        Except.error TagstoreError.notImplemented ∧
    get_group_ids_for_search_filter_queries now p e tags candidates limit =
        [] :=
  ⟨rfl, rfl⟩

/-- C10: a non-visible status fails the assertion of `get_tag_key` /
`get_tag_keys` before any query is issued, and a normal return implies the
status was visible. -/
theorem status_assertion_guard (now p e : Int) (key : String)
    (status : TagKeyStatus) (n : Nat) (res : List (String × Nat)) :
    (status ≠ TagKeyStatus.visible →
      get_tag_key p e key status n = Except.error TagstoreError.assertionFailed ∧
      get_tag_keys p e status res = Except.error TagstoreError.assertionFailed ∧
      get_tag_key_queries now p e key status = [] ∧
      get_tag_keys_queries now p e status = []) ∧
    (∀ r, get_tag_key p e key status n = Except.ok r →
      status = TagKeyStatus.visible) ∧
    (∀ l, get_tag_keys p e status res = Except.ok l →
      status = TagKeyStatus.visible) := by
  cases status with
  | visible =>
    exact ⟨fun h => absurd rfl h, fun r h => rfl, fun l h => rfl⟩
  | pending_deletion =>
    refine ⟨fun h => ⟨rfl, rfl, rfl, rfl⟩, fun r h => ?_, fun l h => ?_⟩
    · simp [get_tag_key] at h
    · simp [get_tag_keys] at h

/-- Witness for C10 at a concrete non-visible status. -/
theorem status_assertion_guard_witness :
    get_tag_key 1 2 "browser" TagKeyStatus.pending_deletion 5 =
        Except.error TagstoreError.assertionFailed ∧
    get_tag_keys_queries 0 1 2 TagKeyStatus.pending_deletion = [] :=
  have h := status_assertion_guard 0 1 2 "browser"
    TagKeyStatus.pending_deletion 5 []
  ⟨(h.1 (by decide)).1, (h.1 (by decide)).2.2.2⟩

/-- C4: every issue id of the requested set is scoped into the query's
`issue` filter, and the returned counts resolve to the engine's count where
a row exists and to zero where the engine returned no row — never negative
(counts are naturals). -/
theorem user_counts_zero_fill (now p e : Int) (group_ids : List Int)
    (result : List (Int × Nat)) (i : Int) (hi : i ∈ group_ids) :
    ("issue", group_ids) ∈
        (get_groups_user_counts_query now p group_ids e).filters ∧
    (result.lookup i = none → get_groups_user_counts result i = 0) ∧
    (∀ c, result.lookup i = some c → get_groups_user_counts result i = c) ∧
    0 ≤ get_groups_user_counts result i := by
  refine ⟨?_, fun h => ?_, fun c h => ?_, Nat.zero_le _⟩
  · simp [get_groups_user_counts_query]
  · simp [get_groups_user_counts, h]
  · simp [get_groups_user_counts, h]

/-- Witness for C4: issue 11 is requested, the engine only returned a row
for issue 10, and the count for 11 resolves to zero. -/
theorem user_counts_zero_fill_witness :
    get_groups_user_counts [((10 : Int), 4)] 11 = 0 :=
  (user_counts_zero_fill 0 1 2 [10, 11] [(10, 4)] 11 (by decide)).2.1
    (by decide)

/-- C6: `get_group_list_tag_value` returns a mapping keyed by issue id in
which every stored `GroupTagValue`'s `group_id` equals its key, the mapping's
keys are exactly the issues the engine returned rows for, and a requested
issue with no engine row is absent from the mapping. -/
theorem group_list_keyed_by_issue (key value : String)
    (result : List (Int × ValAgg)) (group_ids : List Int) (i : Int)
    (hi : i ∈ group_ids) (hno : i ∉ result.map Prod.fst) :
    (∀ p ∈ get_group_list_tag_value key value result,
      p.2.ctor = RecordCtor.groupTagValueC ∧ p.2.group_id = some p.1) ∧
    (get_group_list_tag_value key value result).map Prod.fst =
        result.map Prod.fst ∧
    i ∉ (get_group_list_tag_value key value result).map Prod.fst := by
  refine ⟨fun p hp => ?_, ?_, ?_⟩
  · simp only [get_group_list_tag_value, List.mem_map] at hp
    obtain ⟨a, ha, rfl⟩ := hp
    exact ⟨rfl, rfl⟩
  · simp [get_group_list_tag_value]
  · simpa [get_group_list_tag_value] using hno

/-- Witness for C6: requested issues 10 and 11, an engine row only for 10,
and 11 is absent from the result mapping. -/
theorem group_list_keyed_by_issue_witness :
    (11 : Int) ∉
      (get_group_list_tag_value "env" "prod" [((10 : Int), ⟨3, 1, 2⟩)]).map
        Prod.fst :=
  (group_list_keyed_by_issue "env" "prod" [(10, ⟨3, 1, 2⟩)] [10, 11] 11
    (by decide) (by decide)).2.2

/-- C5: when the engine honours the requested order-by (rows descending in
the ordered aggregate), `get_top_group_tag_values` yields records descending
in `times_seen` with a default limit of 3, and `get_tag_keys` yields records
descending in `values_seen` with every zero-`values_seen` row excluded. -/
theorem ordering_guarantees (now p g e : Int) (key : String)
    (resT : List (String × ValAgg)) (resK : List (String × Nat))
    (hT : resT.Pairwise fun a b => b.2.times_seen ≤ a.2.times_seen)
    (hK : resK.Pairwise fun a b => b.2 ≤ a.2) :
    ((get_top_group_tag_values g key resT).Pairwise fun a b =>
      b.times_seen.getD 0 ≤ a.times_seen.getD 0) ∧
    (get_top_group_tag_values_query now p g e key).limit = some 3 ∧
    (get_top_group_tag_values_query now p g e key).orderby =
        some "-times_seen" ∧
    (__get_tag_keys_query now p none e (some 1000)).orderby =
        some "-values_seen" ∧
    ∃ l, get_tag_keys p e TagKeyStatus.visible resK = Except.ok l ∧
      (l.Pairwise fun a b => b.values_seen.getD 0 ≤ a.values_seen.getD 0) ∧
      ∀ r ∈ l, r.values_seen ≠ some 0 := by
  refine ⟨?_, rfl, rfl, rfl, __get_tag_keys none resK, rfl, ?_, ?_⟩
  · rw [get_top_group_tag_values, List.pairwise_map]
    simpa [pyConstruct] using hT
  · rw [__get_tag_keys, List.pairwise_map]
    simp only [pyConstruct, Option.getD_some]
    exact (hK.filter fun kv => kv.2 ≠ 0)
  · intro r hr
    simp only [__get_tag_keys, List.mem_map, List.mem_filter] at hr
    obtain ⟨a, ⟨ha, hne⟩, rfl⟩ := hr
    simp only [pyConstruct, ne_eq, Option.some.injEq]
    simpa using hne

/-- Witness for C5: a concretely descending engine result, with a zero
`values_seen` row that is dropped. -/
theorem ordering_guarantees_witness :
    ∃ l, get_tag_keys 1 2 TagKeyStatus.visible [("x", 4), ("y", 2), ("z", 0)] =
        Except.ok l ∧
      (l.Pairwise fun a b => b.values_seen.getD 0 ≤ a.values_seen.getD 0) ∧
      ∀ r ∈ l, r.values_seen ≠ some 0 :=
  (ordering_guarantees 0 1 7 2 "browser" [("a", ⟨5, 1, 2⟩), ("b", ⟨3, 1, 2⟩)]
    [("x", 4), ("y", 2), ("z", 0)] (by decide) (by decide)).2.2.2.2

/-- C2: both user-scoped operations put a single OR-group in their
conditions; that group holds exactly one `IN` clause per identity field whose
truthy value list is non-empty (an `IN` clause over a column and value list
is in the group iff that pair is one of the four identity lists and the list
is non-empty); and when all four lists are empty the whole condition
evaluates to false on every row — an empty disjunction, never a match-all. -/
theorem user_or_group_construction (event_users : List EventUser)
    (project_ids : List Int) (limit : Nat) (now : Int) :
    (get_group_ids_for_users_query now project_ids event_users limit
      ).conditions = [Cond.group (userOrConditions event_users)] ∧
    (get_group_tag_values_for_users_query now event_users limit).conditions =
        [Cond.group (userOrConditions event_users)] ∧
    (∀ col vals,
      Cond.cmp col "IN" (Lit.strs vals) ∈ userOrConditions event_users ↔
        ((col, vals) ∈ identityLists event_users ∧ vals ≠ [])) ∧
    ((∀ cl ∈ identityLists event_users, cl.2 = []) → ∀ r : Row,
      evalConditions (get_group_ids_for_users_query now project_ids
        event_users limit).conditions r = false ∧
      evalConditions (get_group_tag_values_for_users_query now event_users
        limit).conditions r = false) := by
  have hempty : (∀ cl ∈ identityLists event_users, cl.2 = []) →
      userOrConditions event_users = [] := by
    intro h
    have hf : (identityLists event_users).filter (fun c => c.2 ≠ []) = [] := by
      rw [List.filter_eq_nil_iff]
      intro a ha
      simp [h a ha]
    unfold userOrConditions
    rw [hf, List.map_nil]
  refine ⟨rfl, rfl, fun col vals => ?_, fun h r => ?_⟩
  · constructor
    · intro hmem
      simp only [userOrConditions, List.mem_map, List.mem_filter] at hmem
      obtain ⟨a, ⟨ha, hne⟩, heq⟩ := hmem
      obtain ⟨h1, h2⟩ : a.1 = col ∧ a.2 = vals := by
        have := Cond.cmp.inj heq
        exact ⟨this.1, Lit.strs.inj this.2.2⟩
      refine ⟨?_, ?_⟩
      · rw [← h1, ← h2]
        simpa using ha
      · rw [← h2]
        simpa using hne
    · intro hmem
      simp only [userOrConditions, List.mem_map, List.mem_filter]
      refine ⟨(col, vals), ⟨hmem.1, by simpa using hmem.2⟩, rfl⟩
  · have h0 := hempty h
    constructor
    · simp [get_group_ids_for_users_query, evalConditions, h0, evalCond]
    · simp [get_group_tag_values_for_users_query, evalConditions, h0,
        evalCond]

/-- Witness for C2: one event user whose identity fields are all `None` or
empty, so all four lists are empty, and the built condition rejects an
arbitrary concrete row. -/
theorem user_or_group_construction_witness :
    evalConditions (get_group_ids_for_users_query 0 [1]
      [⟨1, none, some "", none, none⟩] 100).conditions
      (fun c => some c) = false ∧
    evalConditions (get_group_tag_values_for_users_query 0
      [⟨1, none, some "", none, none⟩] 100).conditions
      (fun c => some c) = false :=
  (user_or_group_construction [⟨1, none, some "", none, none⟩] [1] 100 0
    ).2.2.2 (by decide) (fun c => some c)

/-- C8: every query builder derives its window from the wall-clock reading
`now` taken at call time, as the trailing 90-day window
`[now - 90 days, now)` (90 days = 7776000 seconds); no builder takes a
caller-supplied window, and none stores one between calls. -/
theorem trailing_ninety_day_window (now p g e : Int) (gopt : Option Int)
    (key value : String) (group_ids project_ids : List Int)
    (versions : List String) (tags : List (String × String))
    (event_users : List EventUser) (lim : Option Nat) (n : Nat)
    (first : Bool) :
    timeWindow (__get_tag_key_query now p gopt e key) = (now - 7776000, now) ∧
    timeWindow (__get_tag_keys_query now p gopt e lim) =
        (now - 7776000, now) ∧
    timeWindow (__get_tag_value_query now p gopt e key value) =
        (now - 7776000, now) ∧
    timeWindow (__get_tag_values_query now p gopt e key) =
        (now - 7776000, now) ∧
    timeWindow (get_group_list_tag_value_query now p group_ids e key value) =
        (now - 7776000, now) ∧
    timeWindow (get_group_tag_value_count_query now p g e key) =
        (now - 7776000, now) ∧
    timeWindow (get_top_group_tag_values_query now p g e key n) =
        (now - 7776000, now) ∧
    timeWindow (get_release_query now p gopt first) = (now - 7776000, now) ∧
    timeWindow (get_release_tags_query now project_ids e versions) =
        (now - 7776000, now) ∧
    timeWindow (get_group_event_ids_query now p g e tags) =
        (now - 7776000, now) ∧
    timeWindow (get_group_ids_for_users_query now project_ids event_users n) =
        (now - 7776000, now) ∧
    timeWindow (get_group_tag_values_for_users_query now event_users n) =
        (now - 7776000, now) ∧
    timeWindow (get_groups_user_counts_query now p group_ids e) =
        (now - 7776000, now) := by
  refine ⟨?_, ?_, ?_, ?_, ?_, ?_, ?_, ?_, ?_, ?_, ?_, ?_, ?_⟩ <;>
    simp [timeWindow, __get_tag_key_query, __get_tag_keys_query,
      __get_tag_value_query, __get_tag_values_query,
      get_group_list_tag_value_query, get_group_tag_value_count_query,
      get_top_group_tag_values_query, get_release_query,
      get_release_tags_query, get_group_event_ids_query,
      get_group_ids_for_users_query, get_group_tag_values_for_users_query,
      get_groups_user_counts_query, get_time_range]

end Sentry
